import Mathlib

/-!
Shallow embedding of the remittance-management service
(`wook-3`: `database.py`, `dependencies.py`, `routers/remittances.py`,
`routers/corridors.py`) together with theorems checking the
natural-language specification against it.

Conventions of the embedding:
* Python floats are modelled as exact rationals (`ℚ`); `round(x, 2)` is
  modelled as round-half-even to two decimal places on rationals.
* Python dicts keyed by id are modelled as lists in insertion order;
  lookup is `List.find?` on the `id` field, in-place value update is a
  `List.map` that rewrites the entry with the matching id.
* Each HTTP handler becomes a function `Store → args → Store × Except ApiError β`:
  the returned store is the store as mutated up to the point the handler
  returned or raised, so "no partial write" claims are meaningful.
* Error kinds follow the spec's §7 taxonomy (`NotFound` / `ValidationError` /
  `ConflictError`); the HTTP status codes the source attaches to them
  (404 / 400) are collaborator plumbing.  `internalError` stands for an
  exception the source does not catch (`KeyError`, `ZeroDivisionError`).
-/

/-- Boolean substring test on character lists: does `needle` occur
contiguously inside `hay`?  (Python's `needle in hay`.) -/
def isSubstring (needle : List Char) : List Char → Bool
  | [] => needle.isEmpty
  | c :: rest => needle.isPrefixOf (c :: rest) || isSubstring needle rest

/-- Case-insensitive substring test: Python's
`needle.lower() in hay.lower()`. -/
def substrCI (needle hay : String) : Bool :=
  isSubstring needle.toLower.data hay.toLower.data

/-- Round a rational to the nearest integer, ties to even
(the rounding mode of Python's built-in `round`). -/
def roundHalfEven (q : ℚ) : ℤ :=
  let f := ⌊q⌋
  if q - f < 1/2 then f
  else if 1/2 < q - f then f + 1
  else if f % 2 = 0 then f else f + 1

/-- Python's `round(x, 2)`: round to two decimal places, ties to even. -/
def round2 (q : ℚ) : ℚ :=
  (roundHalfEven (q * 100) : ℚ) / 100

/-- A corridor record, as stored in `corridors_db` (`database.py`).
Creation timestamps are modelled as `Nat` ordinals. -/
structure Corridor where
  id : Nat
  name : String
  code : String
  origin_country : String
  destination_country : String
  base_fee_percentage : ℚ
  is_active : Bool
  created_at : Nat
deriving DecidableEq

/-- A remittance record, as stored in `remittances_db` (`database.py`).
`currency`, `payment_method` and `status` are stored as their string
values, exactly as the source stores `enum.value` strings. -/
structure Remittance where
  id : Nat
  reference_code : String
  sender_name : String
  recipient_name : String
  corridor_id : Nat
  amount : ℚ
  currency : String
  exchange_rate : ℚ
  fee : ℚ
  payment_method : String
  status : String
  is_express : Bool
  created_at : Nat
deriving DecidableEq

/-- The whole in-memory state of `database.py`: both collections (in
insertion order) and both identifier counters. -/
structure Store where
  corridors : List Corridor
  remittances : List Remittance
  next_corridor_id : Nat
  next_remittance_id : Nat
deriving DecidableEq

/-- Error kinds per the spec's §7 taxonomy.  `internalError` models an
exception the source never catches (it would surface as HTTP 500). -/
inductive ApiError where
  | notFound
  | validation
  | conflict
  | internalError
deriving DecidableEq

/-- `corridors_db[cid]` / `corridors_db.get(cid)`: lookup by id. -/
def findCorridor (s : Store) (cid : Nat) : Option Corridor :=
  s.corridors.find? (fun c => c.id == cid)

/-- `remittances_db[rid]` / membership test: lookup by id. -/
def findRemittance (s : Store) (rid : Nat) : Option Remittance :=
  s.remittances.find? (fun r => r.id == rid)

/-- `_calculate_fee` (routers/remittances.py, lines 37-48): looks the
corridor up in the store, adds 2.0 percentage points if express, and
rounds `amount * fee_percentage / 100` to two decimals.  `none` models
the `KeyError` the source would raise on a missing corridor id. -/
def calculate_fee (s : Store) (amount : ℚ) (corridor_id : Nat) (is_express : Bool) : Option ℚ :=
  match findCorridor s corridor_id with
  | none => none
  | some corridor =>
    let fee_percentage := corridor.base_fee_percentage + (if is_express then 2 else 0)
    some (round2 (amount * fee_percentage / 100))

/-- The spec's §4.2 fee rule, written from the spec's words:
`fee = round(amount * (baseFeePercentage + (2.0 if isExpress else 0.0)) / 100, 2)`. -/
def computeFee (amount baseFeePercentage : ℚ) (isExpress : Bool) : ℚ :=
  round2 (amount * (baseFeePercentage + (if isExpress then (2 : ℚ) else 0)) / 100)

/-- C1: the fee computation agrees with the spec formula whenever the
corridor resolves, and on the spec's worked example (base 3.5 %,
amount 500) it yields 17.50 without express and 27.50 with express. -/
theorem calculate_fee_spec :
    (∀ (s : Store) (a : ℚ) (cid : Nat) (e : Bool) (c : Corridor),
        findCorridor s cid = some c →
        calculate_fee s a cid e = some (computeFee a c.base_fee_percentage e)) ∧
    computeFee 500 (3.5 : ℚ) false = (17.50 : ℚ) ∧
    computeFee 500 (3.5 : ℚ) true = (27.50 : ℚ) := by
  refine ⟨fun s a cid e c h => ?_,
    by norm_num [computeFee, round2, roundHalfEven],
    by norm_num [computeFee, round2, roundHalfEven]⟩
  simp [calculate_fee, h, computeFee]

/-- One optional filter stage of `_apply_filters`: if the parameter is
absent the list passes through, otherwise the list is filtered by the
stage's predicate. -/
def optFilter {β : Type} (o : Option β) (p : β → Remittance → Bool)
    (l : List Remittance) : List Remittance :=
  match o with
  | none => l
  | some b => l.filter (p b)

/-- The predicate an optional filter stage imposes: `true` when the
parameter is absent. -/
def optPred {β : Type} (o : Option β) (p : β → Remittance → Bool)
    (r : Remittance) : Bool :=
  match o with
  | none => true
  | some b => p b r

/-- The eight optional query parameters of `RemittanceFilters`
(`dependencies.py`, lines 54-111).  Enum-typed parameters are modelled
by their string values. -/
structure RemittanceFilters where
  search : Option String := none
  corridor_id : Option Nat := none
  min_amount : Option ℚ := none
  max_amount : Option ℚ := none
  status : Option String := none
  currency : Option String := none
  payment_method : Option String := none
  is_express : Option Bool := none
deriving DecidableEq

/-- `_apply_filters` (routers/remittances.py, lines 65-110): the eight
stages applied in source order. -/
def apply_filters (filters : RemittanceFilters) (items : List Remittance) : List Remittance :=
  let result := items
  let result := optFilter filters.search (fun q r =>
    substrCI q r.sender_name || substrCI q r.recipient_name || substrCI q r.reference_code) result
  let result := optFilter filters.corridor_id (fun cid r => r.corridor_id == cid) result
  let result := optFilter filters.min_amount (fun m r => decide (m ≤ r.amount)) result
  let result := optFilter filters.max_amount (fun m r => decide (r.amount ≤ m)) result
  let result := optFilter filters.status (fun v r => r.status == v) result
  let result := optFilter filters.currency (fun v r => r.currency == v) result
  let result := optFilter filters.payment_method (fun v r => r.payment_method == v) result
  let result := optFilter filters.is_express (fun v r => r.is_express == v) result
  result

/-- The spec's §4.3 reading of the filter set: a record passes iff every
present predicate holds of it (logical AND); absent predicates impose no
constraint. -/
def matchesFilters (filters : RemittanceFilters) (r : Remittance) : Bool :=
  optPred filters.search (fun q r =>
    substrCI q r.sender_name || substrCI q r.recipient_name || substrCI q r.reference_code) r &&
  optPred filters.corridor_id (fun cid r => r.corridor_id == cid) r &&
  optPred filters.min_amount (fun m r => decide (m ≤ r.amount)) r &&
  optPred filters.max_amount (fun m r => decide (r.amount ≤ m)) r &&
  optPred filters.status (fun v r => r.status == v) r &&
  optPred filters.currency (fun v r => r.currency == v) r &&
  optPred filters.payment_method (fun v r => r.payment_method == v) r &&
  optPred filters.is_express (fun v r => r.is_express == v) r

theorem optFilter_sublist {β : Type} (o : Option β) (p : β → Remittance → Bool)
    (l : List Remittance) : (optFilter o p l).Sublist l := by
  cases o with
  | none => exact List.Sublist.refl l
  | some b => exact List.filter_sublist l

theorem mem_optFilter {β : Type} (o : Option β) (p : β → Remittance → Bool)
    (l : List Remittance) (r : Remittance) :
    r ∈ optFilter o p l ↔ r ∈ l ∧ optPred o p r = true := by
  cases o <;> simp [optFilter, optPred, List.mem_filter]

/-- C2: the filtered result is a sublist (hence subset) of the input,
and a record is in it exactly when it is an input record satisfying all
present predicates simultaneously; absent predicates impose no
constraint. -/
theorem apply_filters_spec (filters : RemittanceFilters) (items : List Remittance) :
    (apply_filters filters items).Sublist items ∧
    ∀ r, r ∈ apply_filters filters items ↔ r ∈ items ∧ matchesFilters filters r = true := by
  constructor
  · exact (optFilter_sublist _ _ _).trans ((optFilter_sublist _ _ _).trans
      ((optFilter_sublist _ _ _).trans ((optFilter_sublist _ _ _).trans
      ((optFilter_sublist _ _ _).trans ((optFilter_sublist _ _ _).trans
      ((optFilter_sublist _ _ _).trans (optFilter_sublist _ _ _)))))))
  · intro r
    simp only [apply_filters, mem_optFilter, matchesFilters, Bool.and_eq_true]
    tauto

/-- The output shape of `PaginatedResponse` (`schemas.py`). -/
structure PaginatedResult (α : Type) where
  items : List α
  total : Nat
  page : Nat
  per_page : Nat
  pages : Nat
  has_next : Bool
  has_prev : Bool
deriving DecidableEq

/-- The pagination block of `list_remittances`
(routers/remittances.py, lines 268-286), over an already filtered and
sorted list and the validated parameters of `PaginationParams`:
`pages = (total + per_page - 1) // per_page if total > 0 else 1`,
`items = result[offset : offset + per_page]`. -/
def paginate {α : Type} (result : List α) (page per_page : Nat) : PaginatedResult α :=
  let total := result.length
  let pages := if total > 0 then (total + per_page - 1) / per_page else 1
  let start := (page - 1) * per_page
  { items := (result.drop start).take per_page
    total := total
    page := page
    per_page := per_page
    pages := pages
    has_next := decide (page < pages)
    has_prev := decide (page > 1) }

/-- The validated pagination parameters of `PaginationParams`
(`dependencies.py`, lines 24-47): FastAPI rejects the request unless
`page ≥ 1` and `1 ≤ per_page ≤ 50`; `offset = (page - 1) * per_page`. -/
structure PaginationParams where
  page : Nat
  per_page : Nat
  offset : Nat
deriving DecidableEq

/-- Query-parameter validation of `PaginationParams` (`ge=1`, `le=50`):
`none` models the 422 rejection by the validation layer. -/
def PaginationParams.validate (page per_page : Int) : Option PaginationParams :=
  if 1 ≤ page ∧ 1 ≤ per_page ∧ per_page ≤ 50 then
    some { page := page.toNat, per_page := per_page.toNat
           offset := ((page - 1) * per_page).toNat }
  else none

/-- C3: for validated parameters, the page slice has length
`min(per_page, max(0, total - offset))` (`max 0` is the truncated `Nat`
subtraction), `pages` is `⌈total / per_page⌉` clamped to a minimum of 1,
`has_next`/`has_prev` are the page-existence flags, and a page past the
end yields an empty item list with the same metadata, not an error. -/
theorem paginate_spec {α : Type} (result : List α) (page per_page : Nat)
    (hpage : 1 ≤ page) (hpp : 1 ≤ per_page) (hpp50 : per_page ≤ 50) :
    (paginate result page per_page).items.length
        = min per_page (result.length - (page - 1) * per_page) ∧
    (paginate result page per_page).total = result.length ∧
    (paginate result page per_page).pages
        = max 1 ((result.length + per_page - 1) / per_page) ∧
    (paginate result page per_page).has_next
        = decide (page < (paginate result page per_page).pages) ∧
    (paginate result page per_page).has_prev = decide (1 < page) ∧
    ((paginate result page per_page).pages < page →
        (paginate result page per_page).items = []) := by
  refine ⟨?_, rfl, ?_, rfl, rfl, ?_⟩
  · simp [paginate, List.length_take, List.length_drop]
  · simp only [paginate]
    rcases Nat.eq_zero_or_pos result.length with h0 | hposl
    · rw [h0]
      simp only [Nat.zero_add, gt_iff_lt, Nat.lt_irrefl, if_false]
      have : (per_page - 1) / per_page = 0 := Nat.div_eq_of_lt (by omega)
      omega
    · rw [if_pos hposl]
      have h1 : 1 ≤ (result.length + per_page - 1) / per_page := by
        rw [Nat.le_div_iff_mul_le hpp]
        omega
      omega
  · intro hlt
    simp only [paginate] at hlt ⊢
    rcases Nat.eq_zero_or_pos result.length with h0 | hposl
    · apply List.eq_nil_of_length_eq_zero
      simp [List.length_take, List.length_drop, h0]
    · rw [if_pos hposl] at hlt
      set t := result.length with ht
      set q := (t + per_page - 1) / per_page with hq
      have hdm : (t + per_page - 1) / per_page * per_page + (t + per_page - 1) % per_page
          = t + per_page - 1 := Nat.div_add_mod' _ _
      have hmlt : (t + per_page - 1) % per_page < per_page := Nat.mod_lt _ hpp
      have htq : t ≤ q * per_page := by
        rw [hq]
        omega
      have hstart : t ≤ (page - 1) * per_page := by
        calc t ≤ q * per_page := htq
        _ ≤ (page - 1) * per_page := Nat.mul_le_mul_right _ (by omega)
      apply List.eq_nil_of_length_eq_zero
      simp [List.length_take, List.length_drop]
      omega

/-- `_enrich_with_corridor` (routers/remittances.py, lines 57-62): pair
the remittance with `corridors_db.get(corridor_id)`. -/
def enrich_with_corridor (s : Store) (r : Remittance) : Remittance × Option Corridor :=
  (r, findCorridor s r.corridor_id)

/-- The remittance-field part of the search match
(routers/remittances.py, lines 140-144): case-insensitive substring
against sender name, recipient name and reference code. -/
def remittanceTextMatch (q : String) (r : Remittance) : Bool :=
  substrCI q r.sender_name || substrCI q r.recipient_name || substrCI q r.reference_code

/-- The corridor-field part of the search match
(routers/remittances.py, lines 147-153): the source reads fields of
`corridors_db.get(corridor_id, {})` with `""` defaults, so a missing
corridor contributes `q in ""`, false for any query of length ≥ 1. -/
def corridorTextMatch (q : String) (c : Option Corridor) : Bool :=
  match c with
  | none => substrCI q "" || substrCI q "" || substrCI q ""
  | some corridor =>
      substrCI q corridor.origin_country || substrCI q corridor.destination_country
        || substrCI q corridor.code

/-- The per-record match of `search_remittances`: the remittance fields
first, and only when none of them match, the associated corridor's
fields. -/
def searchMatch (s : Store) (q : String) (r : Remittance) : Bool :=
  let m := remittanceTextMatch q r
  if m then m else corridorTextMatch q (findCorridor s r.corridor_id)

/-- The matched records of `search_remittances`, in creation (insertion)
order, before enrichment and pagination. -/
def searchFilter (s : Store) (q : String) : List Remittance :=
  s.remittances.filter (searchMatch s q)

/-- The accumulated `results` list of `search_remittances`
(routers/remittances.py, lines 136-156): every matching remittance,
enriched with its corridor. -/
def searchResults (s : Store) (q : String) : List (Remittance × Option Corridor) :=
  (searchFilter s q).map (enrich_with_corridor s)

/-- Python list slicing `l[start:stop]` (step 1) for possibly negative
bounds: negative indices count from the end, then both are clamped to
`[0, len(l)]`. -/
def pySlice {α : Type} (l : List α) (start stop : Int) : List α :=
  let n : Int := l.length
  let s := if start < 0 then max (n + start) 0 else min start n
  let e := if stop < 0 then max (n + stop) 0 else min stop n
  (l.drop s.toNat).take (e - s).toNat

/-- The response dict of `search_remittances`. -/
structure SearchResponse where
  query : String
  items : List (Remittance × Option Corridor)
  total : Int
  page : Int
  per_page : Int
  pages : Int
  has_next : Bool
  has_prev : Bool
deriving DecidableEq

/-- `search_remittances` (routers/remittances.py, lines 117-173).
`page` and `per_page` are plain `int` parameters with no validation
bounds.  `pages` uses Python floor division (`Int.fdiv`); `per_page = 0`
would raise `ZeroDivisionError` in the source, modelled as
`internalError`. -/
def search_remittances (s : Store) (q : String) (page per_page : Int) :
    Except ApiError SearchResponse :=
  if q.length < 2 then .error .validation
  else
    let results := searchResults s q
    if per_page = 0 then .error .internalError
    else
      let total : Int := results.length
      let pages : Int := if total > 0 then Int.fdiv (total + per_page - 1) per_page else 1
      let start : Int := (page - 1) * per_page
      let items := pySlice results start (start + per_page)
      .ok { query := q, items := items, total := total, page := page
            per_page := per_page, pages := pages
            has_next := decide (page < pages), has_prev := decide (page > 1) }

/-- C8: a query shorter than 2 characters fails with `ValidationError`;
for a query of length ≥ 2, a remittance is matched iff the query is a
case-insensitive substring of its sender name, recipient name or
reference code, or, when none of those three match, of its associated
corridor's origin country, destination country or code. -/
theorem search_remittances_match_spec (s : Store) (q : String) :
    (q.length < 2 → ∀ page per_page : Int,
        search_remittances s q page per_page = .error .validation) ∧
    (2 ≤ q.length → ∀ r : Remittance,
        r ∈ searchFilter s q ↔ r ∈ s.remittances ∧
          (remittanceTextMatch q r = true ∨
            (remittanceTextMatch q r = false ∧
              corridorTextMatch q (findCorridor s r.corridor_id) = true))) := by
  constructor
  · intro hq page per_page
    simp [search_remittances, hq]
  · intro _ r
    rw [searchFilter, List.mem_filter]
    refine and_congr_right fun _ => ?_
    rw [searchMatch]
    cases hm : remittanceTextMatch q r <;> simp [hm]

theorem pySlice_nonneg {α : Type} (l : List α) (a b : Int) (ha : 0 ≤ a) (hb : 0 ≤ b) :
    pySlice l a b = (l.drop a.toNat).take (b - a).toNat := by
  simp only [pySlice, if_neg (by omega : ¬ a < 0), if_neg (by omega : ¬ b < 0)]
  rcases le_or_lt (l.length : Int) a with hna | han
  · have h1 : l.drop (min a (l.length : Int)).toNat = [] :=
      List.drop_eq_nil_of_le (by omega)
    have h2 : l.drop a.toNat = [] := List.drop_eq_nil_of_le (by omega)
    rw [h1, h2, List.take_nil, List.take_nil]
  · rw [min_eq_left (by omega : a ≤ (l.length : Int))]
    rcases le_or_lt b (l.length : Int) with hbn | hbg
    · rw [min_eq_left hbn]
    · rw [min_eq_right (by omega : (l.length : Int) ≤ b)]
      have hlen : (l.drop a.toNat).length = l.length - a.toNat := List.length_drop _ _
      rw [List.take_of_length_le (by omega), List.take_of_length_le (by omega)]

/-- C9 (amended): within the §4.4 parameter bounds (`page ≥ 1`,
`1 ≤ per_page ≤ 50`), the search endpoint paginates its matched results
(in creation order) with exactly the engine's items/total/pages/
has_next/has_prev; a page past the end yields an empty list, not an
error.  (The bounds themselves are *not* enforced by the search
endpoint; see the counterexample.) -/
theorem search_paginates_like_engine (s : Store) (q : String) (page per_page : Int)
    (hq : 2 ≤ q.length) (hpage : 1 ≤ page) (hpp : 1 ≤ per_page) (hpp50 : per_page ≤ 50) :
    search_remittances s q page per_page = .ok
      { query := q
        items := (paginate (searchResults s q) page.toNat per_page.toNat).items
        total := ((paginate (searchResults s q) page.toNat per_page.toNat).total : Int)
        page := page
        per_page := per_page
        pages := ((paginate (searchResults s q) page.toNat per_page.toNat).pages : Int)
        has_next := (paginate (searchResults s q) page.toNat per_page.toNat).has_next
        has_prev := (paginate (searchResults s q) page.toNat per_page.toNat).has_prev } := by
  obtain ⟨pN, rfl⟩ : ∃ n : Nat, page = (n : Int) := ⟨page.toNat, by omega⟩
  obtain ⟨ppN, rfl⟩ : ∃ n : Nat, per_page = (n : Int) := ⟨per_page.toNat, by omega⟩
  have hpN : 1 ≤ pN := by exact_mod_cast hpage
  have hppN : 1 ≤ ppN := by exact_mod_cast hpp
  simp only [Int.toNat_ofNat]
  set results := searchResults s q with hres
  have hstart : (((pN : Int) - 1) * (ppN : Int)) = (((pN - 1) * ppN : Nat) : Int) := by
    rw [Nat.cast_mul, Nat.cast_sub hpN, Nat.cast_one]
  have hitems : pySlice results (((pN : Int) - 1) * (ppN : Int))
        ((((pN : Int)) - 1) * (ppN : Int) + (ppN : Int))
      = (results.drop ((pN - 1) * ppN)).take ppN := by
    rw [pySlice_nonneg _ _ _ (mul_nonneg (by omega) (by omega))
        (add_nonneg (mul_nonneg (by omega) (by omega)) (by omega)),
      add_sub_cancel_left, hstart, Int.toNat_ofNat, Int.toNat_ofNat]
  have hpages : (if (results.length : Int) > 0
        then Int.fdiv ((results.length : Int) + (ppN : Int) - 1) (ppN : Int) else 1)
      = ((if results.length > 0
        then (results.length + ppN - 1) / ppN else 1 : Nat) : Int) := by
    rcases Nat.eq_zero_or_pos results.length with h0 | hposl
    · rw [h0]
      norm_num
    · rw [if_pos (by exact_mod_cast hposl), if_pos hposl,
        Int.fdiv_eq_ediv _ (by omega : (0:Int) ≤ (ppN : Int))]
      rw [← Nat.cast_one, ← Nat.cast_add, ← Nat.cast_sub (by omega), Int.ofNat_ediv]
  simp only [search_remittances, if_neg (by omega : ¬ q.length < 2),
    if_neg (by exact_mod_cast by omega : ¬ (ppN : Int) = 0), ← hres, paginate,
    Except.ok.injEq, SearchResponse.mk.injEq]
  refine ⟨trivial, hitems, trivial, trivial, trivial, hpages, ?_, ?_⟩
  · rw [hpages]
    apply decide_eq_decide.mpr
    exact Int.ofNat_lt
  · apply decide_eq_decide.mpr
    constructor
    · intro h
      omega
    · intro h
      omega

/-- Zero-pad a number to width 3: Python's `str(id).zfill(3)`. -/
def zfill3 (n : Nat) : String :=
  let d := toString n
  if d.length < 3 then String.mk (List.replicate (3 - d.length) '0') ++ d else d

/-- `_generate_reference_code` (routers/remittances.py, lines 51-54):
`REM-YYYYMMDD-XXX` from the current date (modelled by the `now`
ordinal) and the new identifier. -/
def generate_reference_code (now : Nat) (remittance_id : Nat) : String :=
  "REM-" ++ toString now ++ "-" ++ zfill3 remittance_id

/-- The validated request body `RemittanceCreate` (`schemas.py`).
Enum fields are modelled by their string values. -/
structure RemittanceCreate where
  sender_name : String
  recipient_name : String
  amount : ℚ
  currency : String
  exchange_rate : ℚ
  payment_method : String
  is_express : Bool
  corridor_id : Nat
deriving DecidableEq

/-- The partial-update body `RemittanceUpdate` (`schemas.py`): `none`
models a field absent from the request (`exclude_unset=True`). -/
structure RemittanceUpdate where
  sender_name : Option String := none
  recipient_name : Option String := none
  amount : Option ℚ := none
  currency : Option String := none
  exchange_rate : Option ℚ := none
  payment_method : Option String := none
  corridor_id : Option Nat := none
  status : Option String := none
  is_express : Option Bool := none
deriving DecidableEq

/-- `remittances_db[remittance_id].update(update_data)`: overwrite
exactly the provided fields. -/
def applyUpdate (r : Remittance) (u : RemittanceUpdate) : Remittance :=
  { r with
    sender_name := u.sender_name.getD r.sender_name
    recipient_name := u.recipient_name.getD r.recipient_name
    amount := u.amount.getD r.amount
    currency := u.currency.getD r.currency
    exchange_rate := u.exchange_rate.getD r.exchange_rate
    payment_method := u.payment_method.getD r.payment_method
    corridor_id := u.corridor_id.getD r.corridor_id
    status := u.status.getD r.status
    is_express := u.is_express.getD r.is_express }

/-- Did the PATCH body set any of `amount`, `corridor_id`, `is_express`?
(the recomputation trigger at routers/remittances.py, line 475). -/
def feeKeySet (u : RemittanceUpdate) : Bool :=
  u.amount.isSome || u.corridor_id.isSome || u.is_express.isSome

/-- Write `f r` over the entry with id `rid`, in place (a keyed dict
assignment `db[rid] = f db[rid]`). -/
def mapEntry (l : List Remittance) (rid : Nat) (f : Remittance → Remittance) :
    List Remittance :=
  l.map (fun r => if r.id == rid then f r else r)

/-- `create_remittance` (routers/remittances.py, lines 320-367):
corridor existence and activity are checked before any mutation; on
success the counter advances, the fee is computed, the reference code
derived, the status set to `pending`, and the record appended. -/
def create_remittance (s : Store) (remittance : RemittanceCreate) (now : Nat) :
    Store × Except ApiError Remittance :=
  match findCorridor s remittance.corridor_id with
  | none => (s, .error .validation)
  | some corridor =>
    if !corridor.is_active then (s, .error .validation)
    else
      let new_id := s.next_remittance_id
      let s1 : Store := { s with next_remittance_id := s.next_remittance_id + 1 }
      match calculate_fee s1 remittance.amount remittance.corridor_id remittance.is_express with
      | none => (s1, .error .internalError)
      | some fee =>
        let r : Remittance :=
          { id := new_id
            reference_code := generate_reference_code now new_id
            sender_name := remittance.sender_name
            recipient_name := remittance.recipient_name
            corridor_id := remittance.corridor_id
            amount := remittance.amount
            currency := remittance.currency
            exchange_rate := remittance.exchange_rate
            fee := fee
            payment_method := remittance.payment_method
            status := "pending"
            is_express := remittance.is_express
            created_at := now }
        ({ s1 with remittances := s1.remittances ++ [r] }, .ok r)

/-- `replace_remittance` (routers/remittances.py, lines 374-423): full
replace; keeps id, reference code, status and creation timestamp; always
recomputes the fee; validates the corridor (existence and activity)
before any mutation. -/
def replace_remittance (s : Store) (rid : Nat) (remittance : RemittanceCreate) :
    Store × Except ApiError Remittance :=
  match findRemittance s rid with
  | none => (s, .error .notFound)
  | some existing =>
    match findCorridor s remittance.corridor_id with
    | none => (s, .error .validation)
    | some corridor =>
      if !corridor.is_active then (s, .error .validation)
      else
        match calculate_fee s remittance.amount remittance.corridor_id remittance.is_express with
        | none => (s, .error .internalError)
        | some fee =>
          let r : Remittance :=
            { id := rid
              reference_code := existing.reference_code
              sender_name := remittance.sender_name
              recipient_name := remittance.recipient_name
              corridor_id := remittance.corridor_id
              amount := remittance.amount
              currency := remittance.currency
              exchange_rate := remittance.exchange_rate
              fee := fee
              payment_method := remittance.payment_method
              status := existing.status
              is_express := remittance.is_express
              created_at := existing.created_at }
          ({ s with remittances := mapEntry s.remittances rid (fun _ => r) }, .ok r)

/-- The mutation tail of `update_remittance`
(routers/remittances.py, lines 471-483): apply the provided fields, then
recompute the fee iff `amount`, `corridor_id` or `is_express` was
provided.  `internalError` models the uncaught `KeyError` were the
record's corridor missing during recomputation. -/
def update_remittance_apply (s : Store) (rid : Nat) (u : RemittanceUpdate) :
    Store × Except ApiError Remittance :=
  let s1 : Store := { s with remittances := mapEntry s.remittances rid (fun r => applyUpdate r u) }
  if feeKeySet u then
    match findRemittance s1 rid with
    | none => (s1, .error .internalError)
    | some current =>
      match calculate_fee s1 current.amount current.corridor_id current.is_express with
      | none => (s1, .error .internalError)
      | some fee =>
        ({ s1 with remittances := mapEntry s1.remittances rid (fun r => { r with fee := fee }) },
          .ok { current with fee := fee })
  else
    match findRemittance s1 rid with
    | none => (s1, .error .internalError)
    | some current => (s1, .ok current)

/-- `update_remittance` (routers/remittances.py, lines 430-483): 404 on
unknown id; if `corridor_id` is provided, the corridor must exist and be
active; then the provided fields are applied and the fee recomputed when
one of the three fee inputs was provided.  There is no check on status
transitions. -/
def update_remittance (s : Store) (rid : Nat) (u : RemittanceUpdate) :
    Store × Except ApiError Remittance :=
  match findRemittance s rid with
  | none => (s, .error .notFound)
  | some _ =>
    match u.corridor_id with
    | some cid =>
      match findCorridor s cid with
      | none => (s, .error .validation)
      | some corridor =>
        if !corridor.is_active then (s, .error .validation)
        else update_remittance_apply s rid u
    | none => update_remittance_apply s rid u

/-- `delete_corridor` (routers/corridors.py, lines 164-190): 404 on
unknown id; blocked (spec taxonomy: `ConflictError`) while any
remittance references the corridor; otherwise the corridor is removed. -/
def delete_corridor (s : Store) (cid : Nat) : Store × Except ApiError Unit :=
  match findCorridor s cid with
  | none => (s, .error .notFound)
  | some _ =>
    if s.remittances.any (fun r => r.corridor_id == cid) then (s, .error .conflict)
    else ({ s with corridors := s.corridors.filter (fun c => !(c.id == cid)) }, .ok ())

/-- The spec-side fee invariant at a record: what the stored fee should
be per §4.2, from the record's own amount/corridor/express values. -/
def feeSpecOf (s : Store) (rid : Nat) : Option ℚ :=
  (findRemittance s rid).bind fun r =>
    (findCorridor s r.corridor_id).map fun c =>
      computeFee r.amount c.base_fee_percentage r.is_express

/-- A corridor reference that `create`/`update`/`replace` must reject:
missing from the store, or present but inactive. -/
def badCorridor (s : Store) (cid : Nat) : Prop :=
  findCorridor s cid = none ∨ ∃ c, findCorridor s cid = some c ∧ c.is_active = false

/-- Seed corridor 1 of `corridors_db` (`database.py`). -/
def corridorUSMX : Corridor :=
  { id := 1, name := "Estados Unidos a México", code := "US-MX"
    origin_country := "Estados Unidos", destination_country := "México"
    base_fee_percentage := (3.5 : ℚ), is_active := true, created_at := 20240101100000 }

/-- Seed corridor 2 of `corridors_db` (`database.py`). -/
def corridorUSCO : Corridor :=
  { id := 2, name := "Estados Unidos a Colombia", code := "US-CO"
    origin_country := "Estados Unidos", destination_country := "Colombia"
    base_fee_percentage := (4.0 : ℚ), is_active := true, created_at := 20240101100000 }

/-- Seed corridor 3 of `corridors_db` (`database.py`). -/
def corridorUSGT : Corridor :=
  { id := 3, name := "Estados Unidos a Guatemala", code := "US-GT"
    origin_country := "Estados Unidos", destination_country := "Guatemala"
    base_fee_percentage := (4.5 : ℚ), is_active := true, created_at := 20240115080000 }

/-- Seed corridor 4 of `corridors_db` (`database.py`). -/
def corridorESEC : Corridor :=
  { id := 4, name := "España a Ecuador", code := "ES-EC"
    origin_country := "España", destination_country := "Ecuador"
    base_fee_percentage := (3.8 : ℚ), is_active := true, created_at := 20240201090000 }

/-- Seed corridor 5 of `corridors_db` (`database.py`): the only inactive
corridor. -/
def corridorUKIN : Corridor :=
  { id := 5, name := "Reino Unido a India", code := "UK-IN"
    origin_country := "Reino Unido", destination_country := "India"
    base_fee_percentage := (2.5 : ℚ), is_active := false, created_at := 20240215110000 }

/-- Seed remittance 1 of `remittances_db` (`database.py`). -/
def remittance1 : Remittance :=
  { id := 1, reference_code := "REM-20240115-001", sender_name := "Carlos García"
    recipient_name := "María García López", corridor_id := 1, amount := (500.00 : ℚ)
    currency := "USD", exchange_rate := (17.45 : ℚ), fee := (17.50 : ℚ)
    payment_method := "bank_transfer", status := "completed", is_express := false
    created_at := 20240115090000 }

/-- Seed remittance 2 of `remittances_db` (`database.py`). -/
def remittance2 : Remittance :=
  { id := 2, reference_code := "REM-20240120-002", sender_name := "Juan Pérez"
    recipient_name := "Ana Pérez Muñoz", corridor_id := 2, amount := (1200.00 : ℚ)
    currency := "USD", exchange_rate := (4185.50 : ℚ), fee := (48.00 : ℚ)
    payment_method := "debit_card", status := "completed", is_express := false
    created_at := 20240120140000 }

/-- Seed remittance 3 of `remittances_db` (`database.py`). -/
def remittance3 : Remittance :=
  { id := 3, reference_code := "REM-20240201-003", sender_name := "Miguel Torres"
    recipient_name := "Pedro Torres Ruiz", corridor_id := 3, amount := (300.00 : ℚ)
    currency := "USD", exchange_rate := (7.82 : ℚ), fee := (19.50 : ℚ)
    payment_method := "cash", status := "processing", is_express := true
    created_at := 20240201100000 }

/-- Seed remittance 4 of `remittances_db` (`database.py`). -/
def remittance4 : Remittance :=
  { id := 4, reference_code := "REM-20240210-004", sender_name := "Roberto Sánchez"
    recipient_name := "Lucía Sánchez Vega", corridor_id := 4, amount := (800.00 : ℚ)
    currency := "EUR", exchange_rate := (1.08 : ℚ), fee := (30.40 : ℚ)
    payment_method := "bank_transfer", status := "pending", is_express := false
    created_at := 20240210083000 }

/-- Seed remittance 5 of `remittances_db` (`database.py`). -/
def remittance5 : Remittance :=
  { id := 5, reference_code := "REM-20240215-005", sender_name := "Laura Martínez"
    recipient_name := "Carmen Díaz Martínez", corridor_id := 1, amount := (2000.00 : ℚ)
    currency := "USD", exchange_rate := (17.52 : ℚ), fee := (110.00 : ℚ)
    payment_method := "mobile_wallet", status := "completed", is_express := true
    created_at := 20240215110000 }

/-- Seed remittance 6 of `remittances_db` (`database.py`). -/
def remittance6 : Remittance :=
  { id := 6, reference_code := "REM-20240301-006", sender_name := "Andrés López"
    recipient_name := "Felipe López Herrera", corridor_id := 2, amount := (150.00 : ℚ)
    currency := "USD", exchange_rate := (4192.30 : ℚ), fee := (6.00 : ℚ)
    payment_method := "cash", status := "failed", is_express := false
    created_at := 20240301160000 }

/-- Seed remittance 7 of `remittances_db` (`database.py`). -/
def remittance7 : Remittance :=
  { id := 7, reference_code := "REM-20240305-007", sender_name := "Diana Ramírez"
    recipient_name := "Jorge Ramírez Solano", corridor_id := 1, amount := (750.00 : ℚ)
    currency := "USD", exchange_rate := (17.48 : ℚ), fee := (26.25 : ℚ)
    payment_method := "debit_card", status := "pending", is_express := false
    created_at := 20240305090000 }

/-- Seed remittance 8 of `remittances_db` (`database.py`): the cancelled
record. -/
def remittance8 : Remittance :=
  { id := 8, reference_code := "REM-20240310-008", sender_name := "Patricia Flores"
    recipient_name := "Rosa Flores Morales", corridor_id := 3, amount := (450.00 : ℚ)
    currency := "USD", exchange_rate := (7.85 : ℚ), fee := (20.25 : ℚ)
    payment_method := "bank_transfer", status := "cancelled", is_express := false
    created_at := 20240310100000 }

/-- The seeded in-memory state of `database.py`: five corridors, eight
remittances, counters at 6 and 9. -/
def seedStore : Store :=
  { corridors := [corridorUSMX, corridorUSCO, corridorUSGT, corridorESEC, corridorUKIN]
    remittances := [remittance1, remittance2, remittance3, remittance4,
      remittance5, remittance6, remittance7, remittance8]
    next_corridor_id := 6
    next_remittance_id := 9 }

theorem find_mapEntry (l : List Remittance) (rid : Nat) (f : Remittance → Remittance)
    (hf : ∀ r, r.id = rid → (f r).id = rid) :
    (mapEntry l rid f).find? (fun r => r.id == rid)
      = (l.find? (fun r => r.id == rid)).map f := by
  induction l with
  | nil => rfl
  | cons a t ih =>
    simp only [mapEntry, List.map_cons]
    by_cases h : a.id = rid
    · rw [if_pos (by simpa using h)]
      rw [List.find?_cons_of_pos _ (by simpa using hf a h),
        List.find?_cons_of_pos _ (by simpa using h)]
      rfl
    · rw [if_neg (by simpa using h)]
      rw [List.find?_cons_of_neg _ (by simpa using h),
        List.find?_cons_of_neg _ (by simpa using h)]
      exact ih

theorem findRemittance_mapEntry (s : Store) (rid : Nat)
    (f : Remittance → Remittance) (hf : ∀ r, r.id = rid → (f r).id = rid) :
    findRemittance { s with remittances := mapEntry s.remittances rid f } rid
      = (findRemittance s rid).map f :=
  find_mapEntry s.remittances rid f hf

/-- C5 (counterexample): on the seed store, setting the status of the
cancelled remittance 8 to `completed` does not fail with any error — it
succeeds and the stored record's status becomes `completed`. -/
theorem cancelled_to_completed_succeeds :
    (update_remittance seedStore 8 { status := some "completed" }).2
        = .ok { remittance8 with status := "completed" } ∧
    (findRemittance (update_remittance seedStore 8 { status := some "completed" }).1 8).map
        (fun r => r.status) = some "completed" ∧
    (update_remittance seedStore 8 { status := some "completed" }).2
        ≠ .error ApiError.conflict := by
  refine ⟨rfl, rfl, fun h => ?_⟩
  rw [show (update_remittance seedStore 8 { status := some "completed" }).2
      = .ok { remittance8 with status := "completed" } from rfl] at h
  exact Except.noConfusion h

/-- C5 (amended): a partial update that sets the status of a cancelled
remittance to `completed` succeeds — the source performs no
state-transition check — and the stored record's status becomes
`completed`. -/
theorem update_ignores_status_transition (s : Store) (rid : Nat) (r : Remittance)
    (hfind : findRemittance s rid = some r) (_hst : r.status = "cancelled") :
    (update_remittance s rid { status := some "completed" }).2
        = .ok { r with status := "completed" } ∧
    (findRemittance (update_remittance s rid { status := some "completed" }).1 rid).map
        (fun x => x.status) = some "completed" := by
  have happly : ∀ x : Remittance,
      applyUpdate x { status := some "completed" } = { x with status := "completed" } :=
    fun x => rfl
  have hs1 : findRemittance
      { s with
        remittances := mapEntry s.remittances rid (fun x => applyUpdate x { status := some "completed" }) } rid
      = some { r with status := "completed" } := by
    rw [findRemittance_mapEntry s rid
        (fun x => applyUpdate x { status := some "completed" }) (fun x hx => hx), hfind]
    simp [happly]
  simp only [update_remittance, hfind, update_remittance_apply]
  rw [show feeKeySet { status := some "completed" } = false from rfl]
  simp only [Bool.false_eq_true, if_false, hs1]
  exact ⟨trivial, rfl⟩

theorem calculate_fee_some (s : Store) (a : ℚ) (cid : Nat) (e : Bool) (f : ℚ)
    (h : calculate_fee s a cid e = some f) :
    ∃ c, findCorridor s cid = some c ∧ f = computeFee a c.base_fee_percentage e := by
  cases hc : findCorridor s cid with
  | none => rw [calculate_fee, hc] at h; exact Option.noConfusion h
  | some c =>
    rw [calculate_fee, hc] at h
    exact ⟨c, rfl, (Option.some.injEq _ _ ▸ h).symm⟩

theorem patch_apply_fee (s : Store) (rid : Nat) (u : RemittanceUpdate) (r : Remittance)
    (hfind : findRemittance s rid = some r) (hkeys : feeKeySet u = true)
    (hok : (update_remittance_apply s rid u).2.toOption.isSome = true) :
    (findRemittance (update_remittance_apply s rid u).1 rid).map (fun x => x.fee)
      = feeSpecOf (update_remittance_apply s rid u).1 rid := by
  have hfind1 : (mapEntry s.remittances rid (fun x => applyUpdate x u)).find?
      (fun x => x.id == rid) = some (applyUpdate r u) := by
    rw [find_mapEntry s.remittances rid (fun x => applyUpdate x u) (fun x hx => hx),
      show s.remittances.find? (fun x => x.id == rid) = some r from hfind]
    rfl
  simp only [update_remittance_apply, hkeys, if_true, findRemittance, hfind1] at hok ⊢
  cases hcf : calculate_fee
      { s with remittances := mapEntry s.remittances rid fun x => applyUpdate x u }
      (applyUpdate r u).amount (applyUpdate r u).corridor_id (applyUpdate r u).is_express with
  | none =>
    rw [hcf] at hok
    dsimp only at hok
    exact Bool.noConfusion hok
  | some fee =>
    have hfind2 : (mapEntry (mapEntry s.remittances rid fun x => applyUpdate x u) rid
        (fun x => { x with fee := fee })).find? (fun x => x.id == rid)
        = some { applyUpdate r u with fee := fee } := by
      rw [find_mapEntry _ rid (fun x => { x with fee := fee }) (fun x hx => hx), hfind1]
      rfl
    obtain ⟨c, hc, hfee⟩ := calculate_fee_some _ _ _ _ _ hcf
    simp only [findCorridor] at hc
    simp only [feeSpecOf, findRemittance, findCorridor, hfind2, Option.map_some, Option.some_bind]
    rw [hc]
    simp [hfee]

theorem update_apply_fst (s : Store) (rid : Nat) (u : RemittanceUpdate)
    (hkeys : feeKeySet u = false) :
    (update_remittance_apply s rid u).1
      = { s with remittances := mapEntry s.remittances rid (fun x => applyUpdate x u) } := by
  simp only [update_remittance_apply, hkeys, Bool.false_eq_true, if_false]
  cases h : findRemittance
      { s with remittances := mapEntry s.remittances rid fun x => applyUpdate x u } rid <;>
    simp [findRemittance] at h <;> simp [findRemittance, h]

theorem patch_no_fee_keys (s : Store) (rid : Nat) (u : RemittanceUpdate)
    (hkeys : feeKeySet u = false) :
    (findRemittance (update_remittance s rid u).1 rid).map (fun x => x.fee)
      = (findRemittance s rid).map (fun x => x.fee) := by
  have hcid : u.corridor_id = none := by
    cases hcn : u.corridor_id with
    | none => rfl
    | some c => rw [feeKeySet, hcn] at hkeys; simp at hkeys
  cases hfind : findRemittance s rid with
  | none => simp only [update_remittance, hfind]
  | some r =>
    simp only [update_remittance, hfind, hcid, update_apply_fst s rid u hkeys]
    rw [show findRemittance
        { s with remittances := mapEntry s.remittances rid fun x => applyUpdate x u } rid
        = (findRemittance s rid).map (fun x => applyUpdate x u)
        from findRemittance_mapEntry s rid _ (fun x hx => hx), hfind]
    rfl

theorem patch_fee_recomputed (s : Store) (rid : Nat) (u : RemittanceUpdate)
    (hkeys : feeKeySet u = true)
    (hok : (update_remittance s rid u).2.toOption.isSome = true) :
    (findRemittance (update_remittance s rid u).1 rid).map (fun x => x.fee)
      = feeSpecOf (update_remittance s rid u).1 rid := by
  cases hfind : findRemittance s rid with
  | none => simp [update_remittance, hfind, Except.toOption] at hok
  | some r =>
    cases hcid : u.corridor_id with
    | none =>
      have heq : update_remittance s rid u = update_remittance_apply s rid u := by
        simp only [update_remittance, hfind, hcid]
      rw [heq] at hok ⊢
      exact patch_apply_fee s rid u r hfind hkeys hok
    | some cid =>
      cases hc : findCorridor s cid with
      | none =>
        have heq : update_remittance s rid u = (s, .error .validation) := by
          simp only [update_remittance, hfind, hcid, hc]
        rw [heq] at hok
        simp [Except.toOption] at hok
      | some corridor =>
        cases hact : corridor.is_active with
        | false =>
          have heq : update_remittance s rid u = (s, .error .validation) := by
            simp [update_remittance, hfind, hcid, hc, hact]
          rw [heq] at hok
          simp [Except.toOption] at hok
        | true =>
          have heq : update_remittance s rid u = update_remittance_apply s rid u := by
            simp [update_remittance, hfind, hcid, hc, hact]
          rw [heq] at hok ⊢
          exact patch_apply_fee s rid u r hfind hkeys hok

theorem replace_fee_recomputed (s : Store) (rid : Nat) (req : RemittanceCreate)
    (hok : (replace_remittance s rid req).2.toOption.isSome = true) :
    (findRemittance (replace_remittance s rid req).1 rid).map (fun x => x.fee)
      = feeSpecOf (replace_remittance s rid req).1 rid := by
  cases hfind : findRemittance s rid with
  | none => simp [replace_remittance, hfind, Except.toOption] at hok
  | some existing =>
    cases hc : findCorridor s req.corridor_id with
    | none => simp [replace_remittance, hfind, hc, Except.toOption] at hok
    | some corridor =>
      cases hact : corridor.is_active with
      | false => simp [replace_remittance, hfind, hc, hact, Except.toOption] at hok
      | true =>
        cases hcf : calculate_fee s req.amount req.corridor_id req.is_express with
        | none => simp [replace_remittance, hfind, hc, hact, hcf, Except.toOption] at hok
        | some fee =>
          obtain ⟨c, hcc, hfee⟩ := calculate_fee_some _ _ _ _ _ hcf
          simp only [replace_remittance, hfind, hc, hact, hcf, Bool.not_true,
            Bool.false_eq_true, if_false]
          simp only [findRemittance, feeSpecOf, findCorridor]
          rw [find_mapEntry s.remittances rid _ (fun x _ => rfl),
            show s.remittances.find? (fun x => x.id == rid) = some existing from hfind]
          simp only [findCorridor] at hcc
          simp [hcc, hfee]

/-- C4: on a partial update that sets `amount`, `corridor_id` or
`is_express`, a successful result leaves the stored record with
`fee == computeFee` of the post-update amount, corridor base percentage
and express flag; a partial update that sets none of the three leaves
the fee unchanged; and a successful full replace always leaves
`fee == computeFee` of the new values. -/
theorem fee_recomputation_spec (s : Store) (rid : Nat) (u : RemittanceUpdate)
    (req : RemittanceCreate) :
    ((update_remittance s rid u).2.toOption.isSome = true → feeKeySet u = true →
      (findRemittance (update_remittance s rid u).1 rid).map (fun x => x.fee)
        = feeSpecOf (update_remittance s rid u).1 rid) ∧
    (feeKeySet u = false →
      (findRemittance (update_remittance s rid u).1 rid).map (fun x => x.fee)
        = (findRemittance s rid).map (fun x => x.fee)) ∧
    ((replace_remittance s rid req).2.toOption.isSome = true →
      (findRemittance (replace_remittance s rid req).1 rid).map (fun x => x.fee)
        = feeSpecOf (replace_remittance s rid req).1 rid) :=
  ⟨fun hok hkeys => patch_fee_recomputed s rid u hkeys hok,
   fun hkeys => patch_no_fee_keys s rid u hkeys,
   fun hok => replace_fee_recomputed s rid req hok⟩

/-- C6: deleting an existing corridor fails with `ConflictError` and
changes nothing while at least one remittance references it; with zero
references it succeeds, removes exactly that corridor, and leaves the
remittances and both counters untouched. -/
theorem delete_corridor_spec (s : Store) (cid : Nat) (c : Corridor)
    (hc : findCorridor s cid = some c) :
    ((∃ r ∈ s.remittances, r.corridor_id = cid) →
        delete_corridor s cid = (s, .error .conflict)) ∧
    ((∀ r ∈ s.remittances, r.corridor_id ≠ cid) →
      (delete_corridor s cid).2 = .ok () ∧
      (delete_corridor s cid).1.remittances = s.remittances ∧
      (∀ c2, c2 ∈ (delete_corridor s cid).1.corridors ↔ c2 ∈ s.corridors ∧ c2.id ≠ cid) ∧
      (delete_corridor s cid).1.next_corridor_id = s.next_corridor_id ∧
      (delete_corridor s cid).1.next_remittance_id = s.next_remittance_id) := by
  constructor
  · rintro ⟨r, hr, hrc⟩
    have hany : s.remittances.any (fun r => r.corridor_id == cid) = true :=
      List.any_eq_true.mpr ⟨r, hr, by simp [hrc]⟩
    simp only [delete_corridor, hc, hany, if_true]
  · intro hnone
    have hany : s.remittances.any (fun r => r.corridor_id == cid) = false := by
      rw [Bool.eq_false_iff]
      intro h
      obtain ⟨r, hr, hrc⟩ := List.any_eq_true.mp h
      exact hnone r hr (by simpa using hrc)
    simp only [delete_corridor, hc, hany, Bool.false_eq_true, if_false]
    refine ⟨trivial, trivial, fun c2 => ?_, trivial, trivial⟩
    simp [List.mem_filter]

/-- C7: creating a remittance whose corridor is missing or inactive
fails with `ValidationError` — for any values of the other fields — and
returns the store unchanged: no record appended, no counter advanced. -/
theorem create_remittance_invalid_corridor (s : Store) (req : RemittanceCreate) (now : Nat)
    (h : badCorridor s req.corridor_id) :
    create_remittance s req now = (s, .error .validation) := by
  rcases h with hnone | ⟨c, hc, hact⟩
  · simp only [create_remittance, hnone]
  · simp only [create_remittance, hc, hact, Bool.not_false, if_true]

/-- C10: a partial update that provides a `corridor_id` that is missing
or inactive, and a full replace whose `corridor_id` is missing or
inactive, are both rejected with an error and leave the store — hence
the stored record — unchanged. -/
theorem update_replace_invalid_corridor (s : Store) (rid : Nat) (u : RemittanceUpdate)
    (req : RemittanceCreate) (cid : Nat) (r : Remittance)
    (hfind : findRemittance s rid = some r) :
    (u.corridor_id = some cid → badCorridor s cid →
      update_remittance s rid u = (s, .error .validation)) ∧
    (req.corridor_id = cid → badCorridor s cid →
      replace_remittance s rid req = (s, .error .validation)) := by
  constructor
  · intro hu hbad
    rcases hbad with hnone | ⟨c, hc, hact⟩
    · simp only [update_remittance, hfind, hu, hnone]
    · simp only [update_remittance, hfind, hu, hc, hact, Bool.not_false, if_true]
  · intro hreq hbad
    rcases hbad with hnone | ⟨c, hc, hact⟩
    · rw [← hreq] at hnone
      simp only [replace_remittance, hfind, hnone]
    · rw [← hreq] at hc
      simp only [replace_remittance, hfind, hc, hact, Bool.not_false, if_true]

/-- A well-formed creation body used to instantiate theorems at a
concrete input. -/
def witnessCreateBody : RemittanceCreate :=
  { sender_name := "Ana Prueba", recipient_name := "Luis Prueba", amount := 200
    currency := "USD", exchange_rate := 1, payment_method := "cash"
    is_express := true, corridor_id := 2 }

/-- A creation body that targets the inactive seed corridor 5. -/
def inactiveCreateBody : RemittanceCreate :=
  { sender_name := "Ana Prueba", recipient_name := "Luis Prueba", amount := 100
    currency := "GBP", exchange_rate := 1, payment_method := "cash"
    is_express := false, corridor_id := 5 }

/-- A creation body that targets a nonexistent corridor id. -/
def missingCorridorBody : RemittanceCreate :=
  { sender_name := "Ana Prueba", recipient_name := "Luis Prueba", amount := 100
    currency := "USD", exchange_rate := 1, payment_method := "cash"
    is_express := false, corridor_id := 99 }

theorem calculate_fee_spec_witness :
    calculate_fee seedStore 500 1 false
      = some (computeFee 500 corridorUSMX.base_fee_percentage false) :=
  calculate_fee_spec.1 seedStore 500 1 false corridorUSMX rfl

theorem paginate_spec_witness :
    (paginate (List.range 5) 2 2).items.length
        = min 2 ((List.range 5).length - (2 - 1) * 2) ∧
    (paginate (List.range 5) 2 2).total = (List.range 5).length ∧
    (paginate (List.range 5) 2 2).pages = max 1 (((List.range 5).length + 2 - 1) / 2) ∧
    (paginate (List.range 5) 2 2).has_next
        = decide (2 < (paginate (List.range 5) 2 2).pages) ∧
    (paginate (List.range 5) 2 2).has_prev = decide (1 < 2) ∧
    ((paginate (List.range 5) 2 2).pages < 2 → (paginate (List.range 5) 2 2).items = []) :=
  paginate_spec (List.range 5) 2 2 (by norm_num) (by norm_num) (by norm_num)

theorem fee_recomputation_spec_witness :
    ((findRemittance (update_remittance seedStore 4 { amount := some 100 }).1 4).map
        (fun x => x.fee) = feeSpecOf (update_remittance seedStore 4 { amount := some 100 }).1 4) ∧
    ((findRemittance (update_remittance seedStore 4 { sender_name := some "Nuevo Nombre" }).1 4).map
        (fun x => x.fee) = (findRemittance seedStore 4).map (fun x => x.fee)) ∧
    ((findRemittance (replace_remittance seedStore 1 witnessCreateBody).1 1).map
        (fun x => x.fee) = feeSpecOf (replace_remittance seedStore 1 witnessCreateBody).1 1) :=
  ⟨(fee_recomputation_spec seedStore 4 { amount := some 100 } witnessCreateBody).1 rfl rfl,
   (fee_recomputation_spec seedStore 4 { sender_name := some "Nuevo Nombre" }
      witnessCreateBody).2.1 rfl,
   (fee_recomputation_spec seedStore 1 { } witnessCreateBody).2.2 rfl⟩

theorem update_ignores_status_transition_witness :
    (update_remittance seedStore 8 { status := some "completed" }).2
        = .ok { remittance8 with status := "completed" } ∧
    (findRemittance (update_remittance seedStore 8 { status := some "completed" }).1 8).map
        (fun x => x.status) = some "completed" :=
  update_ignores_status_transition seedStore 8 remittance8 rfl rfl

theorem delete_corridor_spec_witness :
    delete_corridor seedStore 1 = (seedStore, .error .conflict) ∧
    (delete_corridor seedStore 5).2 = .ok () :=
  ⟨(delete_corridor_spec seedStore 1 corridorUSMX rfl).1
      ⟨remittance1, by simp [seedStore], rfl⟩,
   ((delete_corridor_spec seedStore 5 corridorUKIN rfl).2 (by decide)).1⟩

theorem create_remittance_invalid_corridor_witness :
    create_remittance seedStore inactiveCreateBody 20250101 = (seedStore, .error .validation) :=
  create_remittance_invalid_corridor seedStore inactiveCreateBody 20250101
    (Or.inr ⟨corridorUKIN, rfl, rfl⟩)

theorem search_remittances_match_spec_witness :
    search_remittances seedStore "a" 1 10 = .error .validation ∧
    (remittance1 ∈ searchFilter seedStore "rem" ↔ remittance1 ∈ seedStore.remittances ∧
      (remittanceTextMatch "rem" remittance1 = true ∨
        (remittanceTextMatch "rem" remittance1 = false ∧
          corridorTextMatch "rem" (findCorridor seedStore remittance1.corridor_id) = true))) :=
  ⟨(search_remittances_match_spec seedStore "a").1 (by decide) 1 10,
   (search_remittances_match_spec seedStore "rem").2 (by decide) remittance1⟩

theorem search_paginates_like_engine_witness :
    search_remittances seedStore "mar" 1 10 = .ok
      { query := "mar"
        items := (paginate (searchResults seedStore "mar") (1 : Int).toNat (10 : Int).toNat).items
        total := ((paginate (searchResults seedStore "mar")
          (1 : Int).toNat (10 : Int).toNat).total : Int)
        page := 1
        per_page := 10
        pages := ((paginate (searchResults seedStore "mar")
          (1 : Int).toNat (10 : Int).toNat).pages : Int)
        has_next := (paginate (searchResults seedStore "mar")
          (1 : Int).toNat (10 : Int).toNat).has_next
        has_prev := (paginate (searchResults seedStore "mar")
          (1 : Int).toNat (10 : Int).toNat).has_prev } :=
  search_paginates_like_engine seedStore "mar" 1 10 (by decide) (by decide) (by decide) (by decide)

/-- C9 (counterexample): the §4.4 pagination parameters reject
`page = 0` (422 validation), but the search endpoint performs no such
validation and answers `page = 0` with a normal 200 response — so the
two do not share "the same parameter bounds". -/
theorem search_accepts_out_of_bounds_page :
    PaginationParams.validate 0 10 = none ∧
    (search_remittances seedStore "mar" 0 10).toOption.isSome = true := ⟨rfl, rfl⟩

theorem update_replace_invalid_corridor_witness :
    update_remittance seedStore 4 { corridor_id := some 5 } = (seedStore, .error .validation) ∧
    replace_remittance seedStore 4 missingCorridorBody = (seedStore, .error .validation) :=
  ⟨(update_replace_invalid_corridor seedStore 4 { corridor_id := some 5 } missingCorridorBody 5
      remittance4 rfl).1 rfl (Or.inr ⟨corridorUKIN, rfl, rfl⟩),
   (update_replace_invalid_corridor seedStore 4 { corridor_id := some 5 } missingCorridorBody 99
      remittance4 rfl).2 rfl (Or.inl rfl)⟩
